import Mathlib

/-
Verification of the dataset upload validator
(lumigator/python/mzai/backend/backend/services/datasets.py) and the job
polling loop (lumigator/python/mzai/sdk/sdk/jobs.py), shallowly embedded
in Lean 4.
-/

/-! ## Error model

The Python code signals failures with exceptions: `HTTPException` values
carrying a status code and a detail string, plus raw `UnicodeError` and
`ValueError` exceptions.  Each constructor below is one exception shape the
two modules can raise; the structured payload holds the data that the
Python detail string renders. -/

/-- A chunk of bytes, as yielded by iterating the binary input stream. -/
abbrev Chunk := List Nat

/-- The exceptions the dataset service can raise.  `PayloadTooLarge` is the
413 `HTTPException` (detail renders the limit human-readably via pydantic),
`MissingFields` and `InvalidFields` are the two 403 `HTTPException` shapes
(detail lists the offending field sets), `UnprocessableContent` is the 422
`HTTPException` ("Dataset is not a valid CSV file."), `InternalServerError`
is the 500 `HTTPException` built by `_raise_unhandled_exception`,
`UnicodeErr` is a raw Python `UnicodeError` from decoding, and `ValueErr`
is a raw Python `ValueError`. -/
inductive PyError where
  | PayloadTooLarge (limit : Nat)
  | MissingFields (missing : Finset String)
  | InvalidFields (extra : Finset String) (allowed : Finset String)
  | UnprocessableContent
  | InternalServerError (msg : String)
  | UnicodeErr
  | ValueErr (msg : String)
deriving DecidableEq

/-- The error-kind taxonomy of the specification. -/
inductive ErrorKind where
  | PayloadTooLarge
  | MissingFields
  | InvalidFields
  | UnprocessableContent
  | Internal
deriving DecidableEq

/-- Kind of each exception.  The `HTTPException` shapes carry their kind
directly.  Modelled from the spec for the raw exceptions: an uncaught
`UnicodeError` or `ValueError` escapes the service and is surfaced by the
web framework as an internal (HTTP 500) failure, i.e. kind `Internal`. -/
def PyError.kind : PyError → ErrorKind
  | .PayloadTooLarge _ => .PayloadTooLarge
  | .MissingFields _ => .MissingFields
  | .InvalidFields _ _ => .InvalidFields
  | .UnprocessableContent => .UnprocessableContent
  | .InternalServerError _ => .Internal
  | .UnicodeErr => .Internal
  | .ValueErr _ => .Internal

/-- Transport-level status code of each error kind. -/
def ErrorKind.status_code : ErrorKind → Nat
  | .PayloadTooLarge => 413
  | .MissingFields => 403
  | .InvalidFields => 403
  | .UnprocessableContent => 422
  | .Internal => 500

/-! ## Bounded upload size validation (`validate_file_size`) -/

/-- Total number of bytes in a chunk sequence. -/
def chunksSize (cs : List Chunk) : Nat := (cs.map List.length).sum

/-- Loop body of `validate_file_size`: `actual_size` is the running total,
`dest` the sequence of chunks written to the output buffer so far.  Each
chunk is written to the output (whose `write` returns the number of bytes
written, the chunk length) before the size check, and the 413 exception is
raised as soon as the running total exceeds `max_size`. -/
def validate_file_size_go (max_size : Nat) :
    List Chunk → Nat → List Chunk → List Chunk × Except PyError Nat
  | [], actual_size, dest => (dest, .ok actual_size)
  | chunk :: rest, actual_size, dest =>
      let actual_size := actual_size + chunk.length
      let dest := dest ++ [chunk]
      if actual_size > max_size then
        (dest, .error (.PayloadTooLarge max_size))
      else
        validate_file_size_go max_size rest actual_size dest

/-- `validate_file_size(input, output, max_size)`: streams the chunks of
`input` into the output buffer, returning the bytes written by each chunk
and raising 413 `PayloadTooLarge` the moment the running total exceeds
`max_size`.  The result pairs the final content of the output buffer with
either the raised exception or the returned `actual_size`. -/
def validate_file_size (input : List Chunk) (max_size : Nat) :
    List Chunk × Except PyError Nat :=
  validate_file_size_go max_size input 0 []

/-! ## Dataset format validation (`validate_dataset_format`) -/

/-- `ALLOWED_EXPERIMENT_FIELDS` from datasets.py. -/
def ALLOWED_EXPERIMENT_FIELDS : Finset String := {"examples", "ground_truth"}

/-- `REQUIRED_EXPERIMENT_FIELDS` from datasets.py. -/
def REQUIRED_EXPERIMENT_FIELDS : Finset String := {"examples"}

/-- Modelled from the spec: `DatasetFormat` (schemas.datasets, not under
src/) is an enumeration whose only defined tag is "experiment".  The
`other` constructor stands for any non-EXPERIMENT value a dynamically
typed caller could pass, reaching the catch-all arm of the `match`. -/
inductive DatasetFormat where
  | EXPERIMENT
  | other (tag : String)
deriving DecidableEq

/-- The buffered upload as seen through `Path(filename).open()` followed by
`csv.DictReader`: either text whose header row parses to `fieldnames`
(`none` when the file is empty, mirroring `reader.fieldnames` being
`None`), or content that cannot be decoded as text, in which case reading
raises a `UnicodeError`. -/
inductive FileContent where
  | text (fieldnames : Option (List String))
  | binary
deriving DecidableEq

/-- `validate_experiment_dataset(filename)`: opens the file (raising
`UnicodeError` on undecodable content), takes the header field set with
`fields = set(reader.fieldnames or [])`, raises 403 `MissingFields` when a
required field is absent, then 403 `InvalidFields` when a field outside
the allowed set is present. -/
def validate_experiment_dataset (file : FileContent) : Except PyError Unit :=
  match file with
  | .binary => .error .UnicodeErr
  | .text fieldnames =>
      let fields : Finset String := (fieldnames.getD []).toFinset
      let missing_fields := REQUIRED_EXPERIMENT_FIELDS \ fields
      if missing_fields ≠ ∅ then
        .error (.MissingFields missing_fields)
      else
        let extra_fields := fields \ ALLOWED_EXPERIMENT_FIELDS
        if extra_fields ≠ ∅ then
          .error (.InvalidFields extra_fields ALLOWED_EXPERIMENT_FIELDS)
        else
          .ok ()

/-- The `except UnicodeError` clause of `validate_dataset_format`: a
`UnicodeError` raised by the body is re-raised as the 422
`UnprocessableContent` exception ("Dataset is not a valid CSV file.");
every other outcome of the body passes through unchanged.  In particular
a raw `ValueError` is not a `UnicodeError` and is not caught. -/
def catch_unicode_error (body : Except PyError Unit) : Except PyError Unit :=
  match body with
  | .error .UnicodeErr => .error .UnprocessableContent
  | r => r

/-- `validate_dataset_format(filename, format)`: dispatches on the format
tag (the catch-all arm raises `ValueError("Unknown dataset format: ...")`)
inside a try block whose `except UnicodeError` clause is
`catch_unicode_error`. -/
def validate_dataset_format (file : FileContent) (format : DatasetFormat) :
    Except PyError Unit :=
  catch_unicode_error
    (match format with
     | .EXPERIMENT => validate_experiment_dataset file
     | .other tag => .error (.ValueErr ("Unknown dataset format: " ++ tag)))

/-! ## Job polling (`Jobs.wait_for_job`) -/

/-- The job status enumeration observed in `jobinfo["status"]`. -/
inductive JobStatus where
  | PENDING
  | RUNNING
  | FAILED
  | STOPPED
  | SUCCEEDED
deriving DecidableEq

/-- A job status snapshot: the parsed JSON response of one status query.
`payload` stands for the rest of the response body, which
`wait_for_job` returns untouched on success. -/
structure JobInfo where
  status : JobStatus
  payload : String
deriving DecidableEq

/-- The exceptions `wait_for_job` raises: job failed, job stopped, or the
retry budget was exhausted without reaching a terminal status. -/
inductive JobError where
  | JobFailed
  | JobStopped
  | PollTimeout
deriving DecidableEq

deriving instance DecidableEq for Except

/-- Observable outcome of one `wait_for_job` call: how many status queries
were made, how many times the loop slept, and the returned snapshot or
raised exception. -/
structure PollResult where
  observations : Nat
  sleeps : Nat
  outcome : Except JobError JobInfo
deriving DecidableEq

/-- Loop body of `wait_for_job`.  `provider n` is the response of the
(n+1)-th status query.  `fuel` is the number of loop iterations left,
`obs` the queries made so far, `sleeps` the sleeps performed so far.  On
PENDING or RUNNING the loop sleeps `poll_wait` seconds and continues; on
FAILED or STOPPED it raises at once; on SUCCEEDED it returns the snapshot
at once; when the iterations are exhausted it raises the timeout
exception. -/
def wait_for_job_go (provider : Nat → JobInfo) :
    Nat → Nat → Nat → PollResult
  | 0, obs, sleeps => ⟨obs, sleeps, .error .PollTimeout⟩
  | fuel + 1, obs, sleeps =>
      let jobinfo := provider obs
      match jobinfo.status with
      | .PENDING => wait_for_job_go provider fuel (obs + 1) (sleeps + 1)
      | .RUNNING => wait_for_job_go provider fuel (obs + 1) (sleeps + 1)
      | .FAILED => ⟨obs + 1, sleeps, .error .JobFailed⟩
      | .STOPPED => ⟨obs + 1, sleeps, .error .JobStopped⟩
      | .SUCCEEDED => ⟨obs + 1, sleeps, .ok jobinfo⟩

/-- `Jobs.wait_for_job(id, retries, poll_wait)`: polls the status endpoint
in a `for _ in range(1, retries)` loop, so the loop body runs at most
`retries - 1` times (truncated subtraction: zero iterations when
`retries` is 0 or 1). -/
def wait_for_job (provider : Nat → JobInfo) (retries : Nat) : PollResult :=
  wait_for_job_go provider (retries - 1) 0 0

/-! ## The composed upload flow (`DatasetService.upload_dataset`)

The collaborators (`NamedTemporaryFile`, `DatasetRepository`, the S3
filesystem) are modelled as explicit state: whether the temporary file
currently exists, and the list of records in the repository. -/

/-- A dataset record persisted by `DatasetRepository.create`. -/
structure DatasetRecord where
  id : Nat
  filename : String
  format : DatasetFormat
  size : Nat
deriving DecidableEq

/-- The mutable world the upload flow touches: the temporary buffer file
and the relational record store.  `next_id` is the id the repository
assigns to the next created record. -/
structure WorldState where
  temp_exists : Bool
  records : List DatasetRecord
  next_id : Nat
deriving DecidableEq

/-- `DatasetRepository.create(filename, format, size)`: persists a fresh
record and returns it. -/
def dataset_repo_create (st : WorldState) (filename : String)
    (format : DatasetFormat) (size : Nat) : WorldState × DatasetRecord :=
  let record : DatasetRecord := ⟨st.next_id, filename, format, size⟩
  (⟨st.temp_exists, st.records ++ [record], st.next_id + 1⟩, record)

/-- `DatasetRepository.delete(id)`: removes the record with the given id. -/
def dataset_repo_delete (st : WorldState) (id : Nat) : WorldState :=
  ⟨st.temp_exists, st.records.filter (fun r => r.id ≠ id), st.next_id⟩

/-- One upload request and the behaviour of the external collaborators
during it: the chunk sequence of the uploaded file, its filename, the
configured size limit, the buffered content as the CSV reader will see it,
the requested format, and `s3_failure` — `some msg` when the
load-and-save-to-S3 step raises an exception rendering to `msg`, `none`
when it succeeds. -/
structure UploadEnv where
  chunks : List Chunk
  filename : String
  max_size : Nat
  content : FileContent
  format : DatasetFormat
  s3_failure : Option String

/-- `DatasetService._save_dataset_to_s3(temp_fname, record)`: loads the
buffered CSV and saves it to S3; if that raises, the just-created record
is deleted from the repository and the exception is re-raised as a 500
`InternalServerError` via `_raise_unhandled_exception`. -/
def save_dataset_to_s3 (env : UploadEnv) (st : WorldState)
    (record : DatasetRecord) : WorldState × Except PyError Unit :=
  match env.s3_failure with
  | some msg => (dataset_repo_delete st record.id, .error (.InternalServerError msg))
  | none => (st, .ok ())

/-- The `try` block of `upload_dataset`: validate the size while writing
to the temporary buffer, validate the format of the buffered content,
create the repository record, then convert and save to S3.  The first
raised exception aborts the rest of the block. -/
def upload_dataset_try (env : UploadEnv) (st : WorldState) :
    WorldState × Except PyError DatasetRecord :=
  match (validate_file_size env.chunks env.max_size).2 with
  | .error e => (st, .error e)
  | .ok actual_size =>
      match validate_dataset_format env.content env.format with
      | .error e => (st, .error e)
      | .ok _ =>
          let created := dataset_repo_create st env.filename env.format actual_size
          match save_dataset_to_s3 env created.1 created.2 with
          | (st2, .error e) => (st2, .error e)
          | (st2, .ok _) => (st2, .ok created.2)

/-- `DatasetService.upload_dataset(dataset, format)`: creates the
temporary buffer, runs the `try` block, and in the `finally` clause
deletes the temporary file on every exit path, success or raised
exception alike. -/
def upload_dataset (env : UploadEnv) (st : WorldState) :
    WorldState × Except PyError DatasetRecord :=
  let st1 : WorldState := ⟨true, st.records, st.next_id⟩
  let body := upload_dataset_try env st1
  (⟨false, body.1.records, body.1.next_id⟩, body.2)

/-! ## Helper lemmas -/

@[simp]
theorem chunksSize_nil : chunksSize [] = 0 := rfl

@[simp]
theorem chunksSize_cons (c : Chunk) (l : List Chunk) :
    chunksSize (c :: l) = c.length + chunksSize l := by
  simp [chunksSize]

theorem validate_file_size_go_ok (max_size : Nat) :
    ∀ (input : List Chunk) (acc : Nat) (dest : List Chunk),
      acc + chunksSize input ≤ max_size →
      validate_file_size_go max_size input acc dest =
        (dest ++ input, .ok (acc + chunksSize input)) := by
  intro input
  induction input with
  | nil =>
      intro acc dest h
      simp [validate_file_size_go]
  | cons chunk rest ih =>
      intro acc dest h
      simp only [chunksSize_cons] at h
      have hle : ¬ acc + chunk.length > max_size := by omega
      rw [show validate_file_size_go max_size (chunk :: rest) acc dest =
          validate_file_size_go max_size rest (acc + chunk.length) (dest ++ [chunk]) from by
        simp [validate_file_size_go, if_neg hle]]
      rw [ih (acc + chunk.length) (dest ++ [chunk]) (by omega)]
      simp [List.append_assoc, Nat.add_assoc]

theorem validate_file_size_go_overflow (max_size : Nat) :
    ∀ (input : List Chunk) (acc : Nat) (dest : List Chunk),
      acc ≤ max_size →
      acc + chunksSize input > max_size →
      ∃ k, k < input.length ∧
        validate_file_size_go max_size input acc dest =
          (dest ++ input.take (k + 1), .error (.PayloadTooLarge max_size)) ∧
        acc + chunksSize (input.take (k + 1)) > max_size ∧
        acc + chunksSize (input.take k) ≤ max_size := by
  intro input
  induction input with
  | nil =>
      intro acc dest h1 h2
      simp only [chunksSize_nil] at h2
      omega
  | cons chunk rest ih =>
      intro acc dest h1 h2
      by_cases hov : acc + chunk.length > max_size
      · refine ⟨0, by simp, ?_, ?_, ?_⟩
        · simp [validate_file_size_go, if_pos hov]
        · simpa using hov
        · simpa using h1
      · simp only [chunksSize_cons] at h2
        obtain ⟨k, hk, heq, hgt, hle⟩ :=
          ih (acc + chunk.length) (dest ++ [chunk]) (by omega) (by omega)
        refine ⟨k + 1, by simpa using Nat.succ_lt_succ hk, ?_, ?_, ?_⟩
        · rw [show validate_file_size_go max_size (chunk :: rest) acc dest =
              validate_file_size_go max_size rest (acc + chunk.length) (dest ++ [chunk]) from by
            simp [validate_file_size_go, if_neg hov]]
          rw [heq]
          simp [List.append_assoc]
        · simpa [Nat.add_assoc] using hgt
        · simpa [Nat.add_assoc] using hle

theorem catch_unicode_error_ne_unicode (body : Except PyError Unit) :
    catch_unicode_error body ≠ .error .UnicodeErr := by
  rcases body with e | u
  · cases e <;> simp [catch_unicode_error]
  · simp [catch_unicode_error]

theorem validate_experiment_dataset_text_ne_unicode (fieldnames : Option (List String)) :
    validate_experiment_dataset (.text fieldnames) ≠ .error .UnicodeErr := by
  simp only [validate_experiment_dataset]
  split
  · simp
  · split
    · simp
    · simp

theorem wait_for_job_go_shift (provider : Nat → JobInfo) :
    ∀ (k fuel obs sleeps : Nat), k ≤ fuel →
      (∀ n, n < k →
        (provider (obs + n)).status = .PENDING ∨ (provider (obs + n)).status = .RUNNING) →
      wait_for_job_go provider fuel obs sleeps =
        wait_for_job_go provider (fuel - k) (obs + k) (sleeps + k) := by
  intro k
  induction k with
  | zero =>
      intro fuel obs sleeps _ _
      simp
  | succ k ih =>
      intro fuel obs sleeps hk hpre
      obtain ⟨f, rfl⟩ : ∃ f, fuel = f + 1 := ⟨fuel - 1, by omega⟩
      have h0 := hpre 0 (Nat.succ_pos k)
      rw [Nat.add_zero] at h0
      have hstep : wait_for_job_go provider (f + 1) obs sleeps =
          wait_for_job_go provider f (obs + 1) (sleeps + 1) := by
        rcases h0 with h | h <;> simp [wait_for_job_go, h]
      rw [hstep]
      have hrec := ih f (obs + 1) (sleeps + 1) (by omega) (fun n hn => by
        have := hpre (n + 1) (by omega)
        simpa [show obs + (n + 1) = obs + 1 + n from by omega] using this)
      rw [hrec]
      have e1 : f + 1 - (k + 1) = f - k := by omega
      have e2 : obs + (k + 1) = obs + 1 + k := by omega
      have e3 : sleeps + (k + 1) = sleeps + 1 + k := by omega
      rw [e1, e2, e3]

/-! ## Claim theorems -/

/-- Claim C1: for every chunked byte source whose total length exceeds the
limit, `validate_file_size` raises the 413 `PayloadTooLarge` exception
carrying the limit, and the destination buffer holds exactly the chunks of
the source up to and including the chunk whose write made the running
total exceed the limit; no chunk after the overflowing one is read or
written. -/
theorem validate_file_size_payload_too_large (input : List Chunk) (max_size : Nat)
    (h : chunksSize input > max_size) :
    ∃ k, k < input.length ∧
      validate_file_size input max_size =
        (input.take (k + 1), .error (.PayloadTooLarge max_size)) ∧
      chunksSize (input.take (k + 1)) > max_size ∧
      chunksSize (input.take k) ≤ max_size := by
  have hmain := validate_file_size_go_overflow max_size input 0 [] (Nat.zero_le _) (by omega)
  simpa [validate_file_size] using hmain

/-- Witness for C1 at the concrete source [[1,2,3],[4,5]] with limit 4. -/
theorem validate_file_size_payload_too_large_witness :
    ∃ k, k < ([[1, 2, 3], [4, 5]] : List Chunk).length ∧
      validate_file_size [[1, 2, 3], [4, 5]] 4 =
        (([[1, 2, 3], [4, 5]] : List Chunk).take (k + 1), .error (.PayloadTooLarge 4)) ∧
      chunksSize (([[1, 2, 3], [4, 5]] : List Chunk).take (k + 1)) > 4 ∧
      chunksSize (([[1, 2, 3], [4, 5]] : List Chunk).take k) ≤ 4 :=
  validate_file_size_payload_too_large [[1, 2, 3], [4, 5]] 4 (by decide)

/-- Claim C3: for every chunked byte source whose total length is at most
the limit, `validate_file_size` raises nothing, writes the whole source to
the destination and returns the total length; an empty source returns 0
and no failure. -/
theorem validate_file_size_within_limit (input : List Chunk) (max_size : Nat)
    (h : chunksSize input ≤ max_size) :
    validate_file_size input max_size = (input, .ok (chunksSize input)) ∧
    validate_file_size [] max_size = ([], .ok 0) := by
  constructor
  · have hmain := validate_file_size_go_ok max_size input 0 [] (by omega)
    simpa [validate_file_size] using hmain
  · rfl

/-- Witness for C3 at the concrete source [[1,2,3],[4,5]] with limit 5. -/
theorem validate_file_size_within_limit_witness :
    validate_file_size [[1, 2, 3], [4, 5]] 5 =
      ([[1, 2, 3], [4, 5]], .ok (chunksSize [[1, 2, 3], [4, 5]])) ∧
    validate_file_size [] 5 = ([], .ok 0) :=
  validate_file_size_within_limit [[1, 2, 3], [4, 5]] 5 (by decide)

/-- Claim C2 (code bug): `wait_for_job` is documented ("retries (int): The
number of times to poll") and specified to make exactly `retries` status
observations before raising the poll-timeout exception, but its loop
`for _ in range(1, retries)` runs only `retries - 1` iterations.  With an
always-RUNNING provider and `retries = 2` it makes exactly 1 observation,
not 2, and with the default `retries = 30` it makes 29. -/
theorem wait_for_job_observation_count_bug :
    (wait_for_job (fun _ => ⟨.RUNNING, "running"⟩) 2).observations = 1 ∧
    (wait_for_job (fun _ => ⟨.RUNNING, "running"⟩) 2).outcome = .error .PollTimeout ∧
    (wait_for_job (fun _ => ⟨.RUNNING, "running"⟩) 30).observations = 29 :=
  ⟨by decide, by decide, by decide⟩

/-- Claim C5: `wait_for_job` short-circuits on terminal states.  If the
first k observations are non-terminal and observation k+1 (0-indexed k,
still within the loop bound) returns SUCCEEDED, the snapshot is returned
immediately after k+1 observations and k sleeps (so a first-observation
success returns with no sleep); FAILED raises the job-failed exception and
STOPPED the job-stopped exception immediately after those k+1
observations, with no further observation even though attempts remain. -/
theorem wait_for_job_terminal_short_circuit (provider : Nat → JobInfo)
    (retries k : Nat) (hk : k < retries - 1)
    (hpre : ∀ n, n < k →
      (provider n).status = .PENDING ∨ (provider n).status = .RUNNING) :
    ((provider k).status = .SUCCEEDED →
        wait_for_job provider retries = ⟨k + 1, k, .ok (provider k)⟩) ∧
    ((provider k).status = .FAILED →
        wait_for_job provider retries = ⟨k + 1, k, .error .JobFailed⟩) ∧
    ((provider k).status = .STOPPED →
        wait_for_job provider retries = ⟨k + 1, k, .error .JobStopped⟩) := by
  have hshift := wait_for_job_go_shift provider k (retries - 1) 0 0 (by omega)
    (fun n hn => by simpa using hpre n hn)
  obtain ⟨m, hm⟩ : ∃ m, retries - 1 - k = m + 1 := ⟨retries - 1 - k - 1, by omega⟩
  refine ⟨?_, ?_, ?_⟩ <;> intro hst <;>
    · show wait_for_job_go provider (retries - 1) 0 0 = _
      rw [hshift]
      simp only [Nat.zero_add]
      rw [hm]
      simp [wait_for_job_go, hst]

/-- Witness for C5: RUNNING on the first observation, FAILED on the
second, with 4 remaining attempts: the call fails after exactly 2
observations and 1 sleep. -/
theorem wait_for_job_terminal_short_circuit_witness :
    wait_for_job (fun n => if n = 0 then ⟨.RUNNING, "r"⟩ else ⟨.FAILED, "f"⟩) 5 =
      ⟨2, 1, .error .JobFailed⟩ :=
  (wait_for_job_terminal_short_circuit
    (fun n => if n = 0 then ⟨.RUNNING, "r"⟩ else ⟨.FAILED, "f"⟩) 5 1
    (by decide) (by decide)).2.1 (by decide)

/-- Claim C4: with format "experiment", a header whose field set is
{examples, ground_truth} passes; a header of only ground_truth raises the
403 missing-fields exception listing examples; a header of examples and
extra raises the 403 invalid-fields exception listing extra together with
the allowed set, which is {examples, ground_truth}. -/
theorem validate_dataset_format_experiment_cases :
    validate_dataset_format (.text (some ["examples", "ground_truth"])) .EXPERIMENT = .ok () ∧
    validate_dataset_format (.text (some ["ground_truth"])) .EXPERIMENT =
      .error (.MissingFields {"examples"}) ∧
    validate_dataset_format (.text (some ["examples", "extra"])) .EXPERIMENT =
      .error (.InvalidFields {"extra"} ALLOWED_EXPERIMENT_FIELDS) ∧
    ALLOWED_EXPERIMENT_FIELDS = {"examples", "ground_truth"} :=
  ⟨by decide, by decide, by decide, rfl⟩

/-- Claim C6: an undecodable (binary) buffer makes `validate_dataset_format`
raise the 422 `UnprocessableContent` exception ("not a valid CSV file"),
a kind distinct from `MissingFields` and `InvalidFields`, and no call of
`validate_dataset_format` ever propagates the raw decoding exception
`UnicodeErr` to the caller. -/
theorem validate_dataset_format_decode_fault (file : FileContent) (format : DatasetFormat) :
    validate_dataset_format .binary .EXPERIMENT = .error .UnprocessableContent ∧
    ErrorKind.UnprocessableContent ≠ ErrorKind.MissingFields ∧
    ErrorKind.UnprocessableContent ≠ ErrorKind.InvalidFields ∧
    validate_dataset_format file format ≠ .error .UnicodeErr :=
  ⟨by decide, by decide, by decide, catch_unicode_error_ne_unicode _⟩

/-- Claim C8: for every format tag other than EXPERIMENT, the catch-all
arm raises `ValueError("Unknown dataset format: ...")`, which the
`except UnicodeError` clause does not catch; the escaped exception is of
kind `Internal` (surfaced as HTTP 500), not any of the user-facing
validation kinds `MissingFields`, `InvalidFields` or
`UnprocessableContent`. -/
theorem validate_dataset_format_unknown_tag (file : FileContent) (tag : String) :
    validate_dataset_format file (.other tag) =
      .error (.ValueErr ("Unknown dataset format: " ++ tag)) ∧
    (PyError.ValueErr ("Unknown dataset format: " ++ tag)).kind = ErrorKind.Internal ∧
    ErrorKind.Internal.status_code = 500 ∧
    ErrorKind.Internal ≠ ErrorKind.MissingFields ∧
    ErrorKind.Internal ≠ ErrorKind.InvalidFields ∧
    ErrorKind.Internal ≠ ErrorKind.UnprocessableContent :=
  ⟨rfl, rfl, rfl, by decide, by decide, by decide⟩

/-- Claim C9: the required field set of the one registered format is a
subset of its allowed field set; both are constant configuration values,
so no operation changes them. -/
theorem required_fields_subset_allowed :
    REQUIRED_EXPERIMENT_FIELDS ⊆ ALLOWED_EXPERIMENT_FIELDS := by
  decide

/-- Claim C10: an empty file gives `reader.fieldnames = None`, coerced to
the empty field set, so `validate_experiment_dataset` raises the 403
missing-fields exception listing examples rather than crashing or
accepting; and the missing-fields check runs before the invalid-fields
check, so any header missing a required field — even one that also
contains disallowed fields, such as the lone header extra — raises
`MissingFields`. -/
theorem validate_experiment_dataset_missing_first (fns : List String)
    (h : REQUIRED_EXPERIMENT_FIELDS \ fns.toFinset ≠ ∅) :
    validate_experiment_dataset (.text none) = .error (.MissingFields {"examples"}) ∧
    validate_experiment_dataset (.text (some ["extra"])) =
      .error (.MissingFields {"examples"}) ∧
    validate_experiment_dataset (.text (some fns)) =
      .error (.MissingFields (REQUIRED_EXPERIMENT_FIELDS \ fns.toFinset)) := by
  refine ⟨by decide, by decide, ?_⟩
  simp only [validate_experiment_dataset, Option.getD_some]
  rw [if_pos h]

/-- Witness for C10 at the concrete header [ground_truth, junk], which is
both missing a required field and contains disallowed fields. -/
theorem validate_experiment_dataset_missing_first_witness :
    validate_experiment_dataset (.text none) = .error (.MissingFields {"examples"}) ∧
    validate_experiment_dataset (.text (some ["extra"])) =
      .error (.MissingFields {"examples"}) ∧
    validate_experiment_dataset (.text (some ["ground_truth", "junk"])) =
      .error (.MissingFields
        (REQUIRED_EXPERIMENT_FIELDS \ (["ground_truth", "junk"] : List String).toFinset)) :=
  validate_experiment_dataset_missing_first ["ground_truth", "junk"] (by decide)

/-- Claim C7: in the composed upload flow, when the size and format checks
pass but the long-term-storage write raises, the metadata record created
just before is deleted again before the 500 exception propagates, leaving
the repository exactly as it was (assuming the assigned id is fresh, which
the repository guarantees); and the temporary buffer file is deleted on
every exit path of `upload_dataset`, success or failure. -/
theorem upload_dataset_rollback_and_cleanup (env : UploadEnv) (st : WorldState)
    (msg : String)
    (hsize : chunksSize env.chunks ≤ env.max_size)
    (hfmt : validate_dataset_format env.content env.format = .ok ())
    (hfail : env.s3_failure = some msg)
    (hfresh : ∀ r ∈ st.records, r.id ≠ st.next_id) :
    (upload_dataset env st).1.records = st.records ∧
    (upload_dataset env st).2 = .error (.InternalServerError msg) ∧
    (upload_dataset env st).1.temp_exists = false ∧
    (∀ (env2 : UploadEnv) (st2 : WorldState),
      (upload_dataset env2 st2).1.temp_exists = false) := by
  have hvfs : (validate_file_size env.chunks env.max_size).2 = .ok (chunksSize env.chunks) := by
    have hmain := validate_file_size_go_ok env.max_size env.chunks 0 [] (by omega)
    simp [validate_file_size, hmain]
  have hrun : upload_dataset env st =
      (⟨false,
        (st.records ++
          [(⟨st.next_id, env.filename, env.format, chunksSize env.chunks⟩ : DatasetRecord)]).filter
          (fun r => r.id ≠ st.next_id),
        st.next_id + 1⟩,
       .error (.InternalServerError msg)) := by
    simp only [upload_dataset, upload_dataset_try, hvfs, hfmt, dataset_repo_create,
      save_dataset_to_s3, hfail, dataset_repo_delete]
  have hfilter :
      (st.records ++
        [(⟨st.next_id, env.filename, env.format, chunksSize env.chunks⟩ : DatasetRecord)]).filter
        (fun r => r.id ≠ st.next_id) = st.records := by
    simp only [List.filter_append]
    simp
    exact fun r hr => hfresh r hr
  refine ⟨?_, ?_, ?_, fun env2 st2 => rfl⟩
  · rw [hrun]
    simpa using hfilter
  · rw [hrun]
  · rw [hrun]

/-- A concrete upload request for the C7 witness: a small in-limit file
with a valid experiment header, whose S3 save step raises "boom". -/
def envC7 : UploadEnv :=
  ⟨[[1, 2]], "data.csv", 10, .text (some ["examples"]), .EXPERIMENT, some "boom"⟩

/-- A concrete initial world for the C7 witness: no temporary file and an
empty repository. -/
def stC7 : WorldState := ⟨false, [], 0⟩

/-- Witness for C7 at the concrete request `envC7` in world `stC7`. -/
theorem upload_dataset_rollback_and_cleanup_witness :
    (upload_dataset envC7 stC7).1.records = stC7.records ∧
    (upload_dataset envC7 stC7).2 = .error (.InternalServerError "boom") ∧
    (upload_dataset envC7 stC7).1.temp_exists = false := by
  have h := upload_dataset_rollback_and_cleanup envC7 stC7 "boom" (by decide) (by decide) rfl
    (by intro r hr; simp [stC7] at hr)
  exact ⟨h.1, h.2.1, h.2.2.1⟩
